import Mathlib

/-!
# Verification of the video-sharing backend (`main.py`)

Shallow embedding of the FastAPI video-sharing backend: the relational
store (`users`, `videos`, `likes`, `comments` tables), the media file
directory, and the request handlers `register`, `upload_video`,
`like_video`, `check_liked`, `add_comment` and `delete_video`.

Primary keys are modelled the way SQLite assigns rowids to `INTEGER
PRIMARY KEY` columns — one more than the largest id currently in the
table, so ids are reused after the largest row is deleted. A handler
that raises (an `HTTPException` or an uncaught exception) before
committing leaves the state unchanged, which we model by returning the
input state together with an `Except.error`.
-/

namespace VideoApp

/-- A row of the `users` table: id, unique username, email, password hash.
The hash itself is opaque; we store the string produced by the (excluded)
hashing primitive. -/
structure UserRow where
  id : Nat
  username : String
  email : String
  password : String
deriving Repr, DecidableEq

/-- A row of the `videos` table: id, title, description, the on-disk file
path (`filename`), the like counter (a Python `int`, so `Int` here), and
the uploader's user id. -/
structure VideoRow where
  id : Nat
  title : String
  vdescr : String
  filename : String
  likes : Int
  uploader_id : Nat
deriving Repr, DecidableEq

/-- A row of the `likes` table: id plus the (user, video) pair. -/
structure LikeRow where
  id : Nat
  user_id : Nat
  video_id : Nat
deriving Repr, DecidableEq

/-- A row of the `comments` table. The timestamp is the server clock at
insert time, modelled as an abstract `Nat`. -/
structure CommentRow where
  id : Nat
  video_id : Nat
  user_id : Nat
  content : String
  timestamp : Nat
deriving Repr, DecidableEq

/-- The whole persistent state: the four relational tables, the media
directory (`files` is the set of paths present under `./uploads`), and
the server clock used for comment timestamps. Primary keys are not
stored as counters: each table's next id is computed the way SQLite
assigns rowids (see `sqliteRowId`). -/
structure DBState where
  users : List UserRow
  videos : List VideoRow
  likes : List LikeRow
  comments : List CommentRow
  files : List String
  clock : Nat
deriving Repr, DecidableEq

/-- The empty database and empty uploads directory the app starts from. -/
def initState : DBState :=
  { users := [], videos := [], likes := [], comments := [], files := []
  , clock := 0 }

/-- A failure surfaced by a handler: an `HTTPException(status_code,
detail)` raised deliberately, or an uncaught Python exception that
propagates to the framework as a 500 response. -/
inductive ApiError where
  | httpError (status : Nat) (detail : String)
  | serverError (exc : String)
deriving Repr, DecidableEq

/-- SQLite `INTEGER PRIMARY KEY` (rowid alias, no `AUTOINCREMENT` — the
models do not set `sqlite_autoincrement`): a new row receives one more
than the largest rowid currently in the table, or 1 if the table is
empty. Ids are therefore *reused* once the largest row is deleted. -/
def sqliteRowId (ids : List Nat) : Nat := ids.foldr max 0 + 1

/-- Python `str.isspace` characters relevant to `str.strip()` (ASCII
whitespace: space, tab, newline, carriage return, vertical tab, form
feed). -/
def pyIsSpace (c : Char) : Bool :=
  c = ' ' || c = '\t' || c = '\n' || c = '\r' || c = '\x0b' || c = '\x0c'

/-- Python `s.strip()`: drop leading and trailing whitespace. -/
def pyStrip (s : String) : String :=
  String.mk (((s.data.dropWhile pyIsSpace).reverse.dropWhile pyIsSpace).reverse)

/-- `get_user_by_token`: `db.query(User).filter(User.username == token).first()` —
the token literally is the username. -/
def get_user_by_token (token : String) (st : DBState) : Option UserRow :=
  st.users.find? (fun u => u.username == token)

/-- `db.query(Video).filter(Video.id == video_id).first()`. -/
def findVideo (st : DBState) (video_id : Nat) : Option VideoRow :=
  st.videos.find? (fun w => w.id == video_id)

/-- The filter used on the `likes` table:
`Like.user_id == user.id, Like.video_id == video_id`. -/
def likeMatch (uid video_id : Nat) (l : LikeRow) : Bool :=
  l.user_id == uid && l.video_id == video_id

/-- `db.query(Like).filter(Like.user_id == user.id, Like.video_id == video_id).first()`. -/
def findLike (st : DBState) (uid video_id : Nat) : Option LikeRow :=
  st.likes.find? (likeMatch uid video_id)

/-- Mutating the ORM object returned by `.first()` updates the first row
with the given video id; later rows are untouched. -/
def updateFirstVideo (l : List VideoRow) (video_id : Nat) (f : VideoRow → VideoRow) :
    List VideoRow :=
  match l with
  | [] => []
  | w :: rest =>
    if w.id == video_id then f w :: rest
    else w :: updateFirstVideo rest video_id f

/-- `os.path.join(UPLOAD_DIR, f"{uuid.uuid4().hex}_{file.filename}")` with
`UPLOAD_DIR = "./uploads"`: the media-store locator produced for an upload.
The random `uuid4().hex` value (32 hex characters of a random 128-bit
identifier) is passed in as `uuidHex`. -/
def uploadPath (uuidHex origName : String) : String :=
  "./uploads/" ++ uuidHex ++ "_" ++ origName

/-- Whether `open("./uploads/" ++ objName, "wb")` succeeds: only the
uploads directory itself exists (created once at import by
`os.makedirs(UPLOAD_DIR)`), and `open` never creates directories, so the
write succeeds exactly when the object name contains no path separator;
otherwise the parent directory is missing and `open` raises
`FileNotFoundError`, which the handler does not catch. -/
def writeOk (objName : String) : Bool := !(objName.data.contains '/')

/-- `POST /register`: reject a duplicate username with 400, otherwise
insert the user (with the hashed password) and commit. -/
def register (st : DBState) (username email hashed_pw : String) :
    DBState × Except ApiError String :=
  match st.users.find? (fun u => u.username == username) with
  | some _ => (st, .error (.httpError 400 "Username already exists"))
  | none =>
    ({ st with
        users := st.users ++
          [⟨sqliteRowId (st.users.map UserRow.id), username, email, hashed_pw⟩] },
     .ok "User registered successfully")

/-- `POST /upload`. The handler, in source order:
1. reject empty/whitespace title or description (400),
2. reject a missing file payload (400),
3. authenticate the token (400 "Invalid token"),
4. `open` and write the bytes to `{UPLOAD_DIR}/{uuid4().hex}_{filename}` —
   if the object name contains a path separator the parent directory does
   not exist, `open` raises `FileNotFoundError`, and the uncaught
   exception aborts the request with nothing written,
5. insert the Video row (likes defaults to 0, id assigned by SQLite as
   max(rowid)+1) and commit, returning its id.
`file` is `some originalFilename` when a file payload is present; the
random hex string drawn for this request is `uuidHex`. -/
def upload_video (st : DBState) (title descr token : String)
    (file : Option String) (uuidHex : String) :
    DBState × Except ApiError Nat :=
  if pyStrip title = "" || pyStrip descr = "" then
    (st, .error (.httpError 400 "Title and description cannot be empty"))
  else
    match file with
    | none => (st, .error (.httpError 400 "No file uploaded"))
    | some origName =>
      match get_user_by_token token st with
      | none => (st, .error (.httpError 400 "Invalid token"))
      | some user =>
        if writeOk (uuidHex ++ "_" ++ origName) then
          let path := uploadPath uuidHex origName
          ({ st with
              files := st.files ++ [path]
            , videos := st.videos ++
                [⟨sqliteRowId (st.videos.map VideoRow.id),
                  title, descr, path, 0, user.id⟩] },
           .ok (sqliteRowId (st.videos.map VideoRow.id)))
        else (st, .error (.serverError "FileNotFoundError"))

/-- `POST /like/{video_id}`: authenticate (400), find the video (404),
then toggle: delete the existing Like row and decrement the counter, or
insert a new Like row and increment the counter; return the new counter
value and the new liked flag. -/
def like_video (st : DBState) (video_id : Nat) (token : String) :
    DBState × Except ApiError (Int × Bool) :=
  match get_user_by_token token st with
  | none => (st, .error (.httpError 400 "Invalid token"))
  | some user =>
    match findVideo st video_id with
    | none => (st, .error (.httpError 404 "Video not found"))
    | some video =>
      match findLike st user.id video_id with
      | some _ =>
        ({ st with
            likes := st.likes.eraseP (likeMatch user.id video_id)
          , videos := updateFirstVideo st.videos video_id
              (fun w => { w with likes := w.likes - 1 }) },
         .ok (video.likes - 1, false))
      | none =>
        ({ st with
            likes := st.likes ++
              [⟨sqliteRowId (st.likes.map LikeRow.id), user.id, video_id⟩]
          , videos := updateFirstVideo st.videos video_id
              (fun w => { w with likes := w.likes + 1 }) },
         .ok (video.likes + 1, true))

/-- `POST /liked/{video_id}`: an unknown token yields `liked = False`
rather than an error; otherwise report whether a Like row exists for the
(user, video) pair. The handler raises nothing, so it is a total function
into `Bool`. -/
def check_liked (st : DBState) (video_id : Nat) (token : String) : Bool :=
  match get_user_by_token token st with
  | none => false
  | some user => (findLike st user.id video_id).isSome

/-- `POST /comment/{video_id}`: authenticate (400), reject whitespace-only
content (400), then insert the Comment row (timestamp from the server
clock) and commit. No check that the video exists. -/
def add_comment (st : DBState) (video_id : Nat) (token content : String) :
    DBState × Except ApiError String :=
  match get_user_by_token token st with
  | none => (st, .error (.httpError 400 "Invalid token"))
  | some user =>
    if pyStrip content = "" then
      (st, .error (.httpError 400 "Comment cannot be empty"))
    else
      ({ st with
          comments := st.comments ++
            [⟨sqliteRowId (st.comments.map CommentRow.id),
              video_id, user.id, content, st.clock⟩] },
       .ok "Comment added successfully")

/-- `DELETE /video/{video_id}`: authenticate (400), find the video (404),
check ownership (403), then `os.remove` the media file — a
`FileNotFoundError` is swallowed, so a missing file is a silent no-op —
and finally delete the Video row and commit. -/
def delete_video (st : DBState) (video_id : Nat) (token : String) :
    DBState × Except ApiError String :=
  match get_user_by_token token st with
  | none => (st, .error (.httpError 400 "Invalid token"))
  | some user =>
    match findVideo st video_id with
    | none => (st, .error (.httpError 404 "Video not found"))
    | some video =>
      if video.uploader_id != user.id then
        (st, .error (.httpError 403 "Not authorized to delete this video"))
      else
        ({ st with
            files := st.files.filter (fun p => p ≠ video.filename)
          , videos := st.videos.eraseP (fun w => w.id == video_id) },
         .ok "Video deleted successfully")

/-- A small populated state used to exercise the theorems: one registered
user "alice" (id 1) who has uploaded one video (id 1) with no likes yet. -/
def stAlice : DBState :=
  { users := [⟨1, "alice", "a@x.com", "h1"⟩]
  , videos := [⟨1, "T", "D", "./uploads/aa_v.mp4", 0, 1⟩]
  , likes := [], comments := [], files := ["./uploads/aa_v.mp4"]
  , clock := 5 }

/-- `get_user_by_token` only looks at the `users` table. -/
theorem get_user_by_token_congr (st st' : DBState) (token : String)
    (h : st'.users = st.users) :
    get_user_by_token token st' = get_user_by_token token st := by
  unfold get_user_by_token
  rw [h]

/-- After erasing the first row with the given id from a table whose ids
are pairwise distinct, no row with that id remains. -/
theorem find?_eraseP_of_nodup (l : List VideoRow) (video_id : Nat)
    (h : (l.map VideoRow.id).Nodup) :
    (l.eraseP (fun w => w.id == video_id)).find? (fun w => w.id == video_id)
      = none := by
  induction l with
  | nil => simp
  | cons w rest ih =>
    simp only [List.map_cons, List.nodup_cons, List.mem_map] at h
    by_cases hw : w.id = video_id
    · rw [List.eraseP_cons_of_pos (by simp [hw])]
      rw [List.find?_eq_none]
      intro x hx
      simp only [beq_iff_eq]
      intro hxid
      exact h.1 ⟨x, hx, hxid.trans hw.symm⟩
    · rw [List.eraseP_cons_of_neg (by simp [hw])]
      rw [List.find?_cons_of_neg _ (by simp [hw])]
      exact ih h.2

/-- Branch equation for `upload_video`: empty or whitespace-only title
or description short-circuits with the validation error and an unchanged
state. -/
theorem upload_video_invalid_eq (st : DBState) (title descr token : String)
    (file : Option String) (uuidHex : String)
    (h : pyStrip title = "" ∨ pyStrip descr = "") :
    upload_video st title descr token file uuidHex =
      (st, .error (.httpError 400 "Title and description cannot be empty")) := by
  unfold upload_video
  rcases h with h | h <;> simp [h]

/-- **C4**: an upload whose title or description is empty or
whitespace-only fails with the 400 "Title and description cannot be
empty" error and leaves the entire state — Catalog tables and media
files alike — unchanged. -/
theorem upload_video_empty_input (st : DBState) (title descr token : String)
    (file : Option String) (uuidHex : String)
    (h : pyStrip title = "" ∨ pyStrip descr = "") :
    upload_video st title descr token file uuidHex =
      (st, .error (.httpError 400 "Title and description cannot be empty")) :=
  upload_video_invalid_eq st title descr token file uuidHex h

/-- Witness for C4: uploading with a whitespace-only title to the
populated state fails with `InvalidInput` and changes nothing. -/
theorem upload_video_empty_input_witness :
    upload_video stAlice " \t" "D" "alice" (some "f.mp4") "u" =
      (stAlice, .error (.httpError 400 "Title and description cannot be empty")) :=
  upload_video_empty_input stAlice " \t" "D" "alice" (some "f.mp4") "u"
    (Or.inl (by decide))

/-- **C3 counterexample**: a request whose token ("ghost") matches no
registered user but whose title is whitespace-only fails with the
validation error, not with the "Invalid token" (Unauthorized) error —
validation runs before authentication, so the claim as stated is false
for such requests. -/
theorem upload_unauthorized_counterexample :
    get_user_by_token "ghost" stAlice = none ∧
    (upload_video stAlice " " "D" "ghost" (some "f.mp4") "u").2 =
      .error (.httpError 400 "Title and description cannot be empty") ∧
    (ApiError.httpError 400 "Title and description cannot be empty") ≠
      (ApiError.httpError 400 "Invalid token") := by
  refine ⟨rfl, rfl, ?_⟩
  decide

/-- **C3 (amended)**: an upload whose token matches no registered user
always fails and leaves both the media file store and the Catalog
unchanged (in fact the whole state); when its title, description and file
payload pass validation, the failure is the 400 "Invalid token"
(Unauthorized) error. -/
theorem upload_video_invalid_token (st : DBState) (title descr token : String)
    (file : Option String) (uuidHex : String)
    (hauth : get_user_by_token token st = none) :
    (upload_video st title descr token file uuidHex).1 = st ∧
    (∃ e, (upload_video st title descr token file uuidHex).2 = .error e) ∧
    (pyStrip title ≠ "" → pyStrip descr ≠ "" → file ≠ none →
      (upload_video st title descr token file uuidHex).2 =
        .error (.httpError 400 "Invalid token")) := by
  unfold upload_video
  by_cases ht : pyStrip title = ""
  · simp [ht]
  · by_cases hd : pyStrip descr = ""
    · simp [ht, hd]
    · cases file with
      | none => simp [ht, hd]
      | some origName => simp [ht, hd, hauth]

/-- Witness for C3 (amended): uploading with unknown token "ghost" and
valid fields fails with "Invalid token" and leaves the state unchanged. -/
theorem upload_video_invalid_token_witness :
    (upload_video stAlice "T2" "D2" "ghost" (some "f.mp4") "u").1 = stAlice ∧
    (∃ e, (upload_video stAlice "T2" "D2" "ghost" (some "f.mp4") "u").2 = .error e) ∧
    (pyStrip "T2" ≠ "" → pyStrip "D2" ≠ "" → (some "f.mp4") ≠ none →
      (upload_video stAlice "T2" "D2" "ghost" (some "f.mp4") "u").2 =
        .error (.httpError 400 "Invalid token")) :=
  upload_video_invalid_token stAlice "T2" "D2" "ghost" (some "f.mp4") "u" rfl

/-- **C9**: `check_liked` is a total function into `Bool` — it raises
nothing. An unknown token yields `false`; a known user with no Like row
on the video yields `false`; and it yields `true` exactly when the token
names a registered user that has a Like row on the video. -/
theorem check_liked_total (st : DBState) (video_id : Nat) (token : String) :
    (get_user_by_token token st = none → check_liked st video_id token = false) ∧
    (∀ user, get_user_by_token token st = some user →
      findLike st user.id video_id = none →
      check_liked st video_id token = false) ∧
    (check_liked st video_id token = true ↔
      ∃ user, get_user_by_token token st = some user ∧
        ∃ l ∈ st.likes, l.user_id = user.id ∧ l.video_id = video_id) := by
  refine ⟨?_, ?_, ?_⟩
  · intro h
    unfold check_liked
    rw [h]
  · intro user hu hl
    unfold check_liked
    rw [hu]
    change (findLike st user.id video_id).isSome = false
    rw [hl]
    rfl
  · unfold check_liked
    cases hu : get_user_by_token token st with
    | none =>
      simp only [Bool.false_eq_true, false_iff]
      rintro ⟨user, hu', -⟩
      exact Option.noConfusion hu'
    | some user =>
      change (findLike st user.id video_id).isSome = true ↔ _
      unfold findLike
      rw [List.find?_isSome]
      constructor
      · rintro ⟨l, hl, hm⟩
        unfold likeMatch at hm
        simp only [Bool.and_eq_true, beq_iff_eq] at hm
        exact ⟨user, rfl, l, hl, hm.1, hm.2⟩
      · rintro ⟨user', hu', l, hl, h1, h2⟩
        cases hu'
        refine ⟨l, hl, ?_⟩
        unfold likeMatch
        simp [h1, h2]

/-- Witness for C9: an unknown token on the populated state yields
`liked = false` rather than an error. -/
theorem check_liked_total_witness :
    check_liked stAlice 1 "ghost" = false :=
  (check_liked_total stAlice 1 "ghost").1 rfl

/-- **C10**: `add_comment` performs no existence check on the video: with
a valid token and non-whitespace content, commenting on a video id that
matches no Video row still succeeds and appends a Comment row referencing
that nonexistent video. -/
theorem add_comment_no_video_check (st : DBState) (video_id : Nat)
    (token content : String) (user : UserRow)
    (hauth : get_user_by_token token st = some user)
    (hc : pyStrip content ≠ "")
    (_hv : findVideo st video_id = none) :
    (add_comment st video_id token content).2 = .ok "Comment added successfully" ∧
    (add_comment st video_id token content).1.comments =
      st.comments ++ [⟨sqliteRowId (st.comments.map CommentRow.id),
        video_id, user.id, content, st.clock⟩] := by
  unfold add_comment
  rw [hauth]
  simp [hc]

/-- Witness for C10: commenting on nonexistent video id 99 succeeds and
inserts a Comment row with `video_id = 99`. -/
theorem add_comment_no_video_check_witness :
    (add_comment stAlice 99 "alice" "hi").2 = .ok "Comment added successfully" ∧
    (add_comment stAlice 99 "alice" "hi").1.comments =
      stAlice.comments ++ [⟨sqliteRowId (stAlice.comments.map CommentRow.id),
        99, 1, "hi", stAlice.clock⟩] :=
  add_comment_no_video_check stAlice 99 "alice" "hi" ⟨1, "alice", "a@x.com", "h1"⟩
    rfl (by decide) rfl

/-- A delete for an id that resolves to no Video row fails with 404 and
changes nothing. -/
theorem delete_video_notFound (st : DBState) (video_id : Nat) (token : String)
    (user : UserRow)
    (hauth : get_user_by_token token st = some user)
    (hv : findVideo st video_id = none) :
    delete_video st video_id token =
      (st, .error (.httpError 404 "Video not found")) := by
  unfold delete_video
  rw [hauth, hv]

/-- **C6**: for an authenticated requester and an existing video (with
pairwise-distinct video ids, as the primary key guarantees), a delete by
a non-owner fails with 403 Forbidden and changes nothing at all — in
particular the Catalog row and the stored file survive — while a delete
by the owner succeeds, after which the video id resolves to no Catalog
row and a second delete for the same id fails with 404 Not Found. -/
theorem delete_video_auth (st : DBState) (video_id : Nat) (token : String)
    (user : UserRow) (video : VideoRow)
    (hauth : get_user_by_token token st = some user)
    (hv : findVideo st video_id = some video)
    (hnodup : (st.videos.map VideoRow.id).Nodup) :
    (video.uploader_id ≠ user.id →
      delete_video st video_id token =
        (st, .error (.httpError 403 "Not authorized to delete this video"))) ∧
    (video.uploader_id = user.id →
      (delete_video st video_id token).2 = .ok "Video deleted successfully" ∧
      findVideo (delete_video st video_id token).1 video_id = none ∧
      (delete_video (delete_video st video_id token).1 video_id token).2 =
        .error (.httpError 404 "Video not found")) := by
  constructor
  · intro hne
    unfold delete_video
    rw [hauth, hv]
    simp [hne]
  · intro howner
    have hstep : delete_video st video_id token =
        ({ st with
            files := st.files.filter (fun p => p ≠ video.filename)
          , videos := st.videos.eraseP (fun w => w.id == video_id) },
         .ok "Video deleted successfully") := by
      unfold delete_video
      rw [hauth, hv]
      simp [howner]
    have husers : (delete_video st video_id token).1.users = st.users := by
      rw [hstep]
    have hauth' :
        get_user_by_token token (delete_video st video_id token).1 = some user := by
      rw [get_user_by_token_congr st ((delete_video st video_id token).1) token husers]
      exact hauth
    have hvnone : findVideo (delete_video st video_id token).1 video_id = none := by
      rw [hstep]
      unfold findVideo
      exact find?_eraseP_of_nodup st.videos video_id hnodup
    refine ⟨by rw [hstep], hvnone, ?_⟩
    rw [delete_video_notFound ((delete_video st video_id token).1) video_id token
      user hauth' hvnone]

/-- Witness for C6: in the populated state, "alice" (the owner) deletes
video 1; the call succeeds, the record is gone, and a repeat delete
returns 404. -/
theorem delete_video_auth_witness :
    (VideoRow.mk 1 "T" "D" "./uploads/aa_v.mp4" 0 1).uploader_id = 1 ∧
    (delete_video stAlice 1 "alice").2 = .ok "Video deleted successfully" ∧
    findVideo (delete_video stAlice 1 "alice").1 1 = none ∧
    (delete_video (delete_video stAlice 1 "alice").1 1 "alice").2 =
      .error (.httpError 404 "Video not found") :=
  ⟨rfl, (delete_video_auth stAlice 1 "alice" ⟨1, "alice", "a@x.com", "h1"⟩
    ⟨1, "T", "D", "./uploads/aa_v.mp4", 0, 1⟩ rfl rfl (by decide)).2 rfl⟩

/-- **C7**: an owner delete never lets the storage outcome disturb the
metadata delete: whatever the file store contains, the call returns
success and removes the Catalog row, and when the media file is already
missing the `os.remove` failure is swallowed and the file store is left
exactly as it was (silent no-op). -/
theorem delete_video_storage_independent (st : DBState) (video_id : Nat)
    (token : String) (user : UserRow) (video : VideoRow)
    (hauth : get_user_by_token token st = some user)
    (hv : findVideo st video_id = some video)
    (howner : video.uploader_id = user.id) :
    (delete_video st video_id token).2 = .ok "Video deleted successfully" ∧
    (delete_video st video_id token).1.videos =
      st.videos.eraseP (fun w => w.id == video_id) ∧
    (video.filename ∉ st.files →
      (delete_video st video_id token).1.files = st.files) := by
  have hstep : delete_video st video_id token =
      ({ st with
          files := st.files.filter (fun p => p ≠ video.filename)
        , videos := st.videos.eraseP (fun w => w.id == video_id) },
       .ok "Video deleted successfully") := by
    unfold delete_video
    rw [hauth, hv]
    simp [howner]
  rw [hstep]
  refine ⟨rfl, rfl, ?_⟩
  intro habsent
  simp only
  rw [List.filter_eq_self]
  intro p hp
  simp only [decide_eq_true_eq]
  intro hpe
  exact habsent (hpe ▸ hp)

/-- `stAlice` with the media file already missing from the uploads
directory. -/
def stAliceNoFile : DBState := { stAlice with files := [] }

/-- Witness for C7: deleting video 1 from a state whose uploads
directory no longer holds the media file still succeeds, removes the
Catalog row, and leaves the file store untouched. -/
theorem delete_video_storage_independent_witness :
    (delete_video stAliceNoFile 1 "alice").2 = .ok "Video deleted successfully" ∧
    (delete_video stAliceNoFile 1 "alice").1.videos =
      stAliceNoFile.videos.eraseP (fun w => w.id == 1) ∧
    ("./uploads/aa_v.mp4" ∉ stAliceNoFile.files →
      (delete_video stAliceNoFile 1 "alice").1.files = stAliceNoFile.files) :=
  delete_video_storage_independent stAliceNoFile 1 "alice"
    ⟨1, "alice", "a@x.com", "h1"⟩ ⟨1, "T", "D", "./uploads/aa_v.mp4", 0, 1⟩
    rfl rfl rfl

/-- **C8**: an owner delete touches only the Video row and its media
file: the `comments` and `likes` tables come out unchanged, so every
Comment row and every Like row that referenced the deleted video — now
orphaned — is still present afterwards. -/
theorem delete_video_frame (st : DBState) (video_id : Nat) (token : String)
    (user : UserRow) (video : VideoRow)
    (hauth : get_user_by_token token st = some user)
    (hv : findVideo st video_id = some video)
    (howner : video.uploader_id = user.id) :
    (delete_video st video_id token).1.comments = st.comments ∧
    (delete_video st video_id token).1.likes = st.likes ∧
    (∀ c ∈ st.comments, c.video_id = video_id →
      c ∈ (delete_video st video_id token).1.comments) ∧
    (∀ l ∈ st.likes, l.video_id = video_id →
      l ∈ (delete_video st video_id token).1.likes) := by
  have hstep : delete_video st video_id token =
      ({ st with
          files := st.files.filter (fun p => p ≠ video.filename)
        , videos := st.videos.eraseP (fun w => w.id == video_id) },
       .ok "Video deleted successfully") := by
    unfold delete_video
    rw [hauth, hv]
    simp [howner]
  rw [hstep]
  exact ⟨rfl, rfl, fun c hc _ => hc, fun l hl _ => hl⟩

/-- `stAlice` with one like and one comment already placed on video 1. -/
def stAliceEngaged : DBState :=
  { stAlice with likes := [⟨1, 1, 1⟩], comments := [⟨1, 1, 1, "hi", 5⟩] }

/-- Witness for C8: with a like and a comment on video 1, the owner's
delete leaves both rows in place (now orphaned). -/
theorem delete_video_frame_witness :
    (delete_video stAliceEngaged 1 "alice").1.comments = stAliceEngaged.comments ∧
    (delete_video stAliceEngaged 1 "alice").1.likes = stAliceEngaged.likes ∧
    (∀ c ∈ stAliceEngaged.comments, c.video_id = 1 →
      c ∈ (delete_video stAliceEngaged 1 "alice").1.comments) ∧
    (∀ l ∈ stAliceEngaged.likes, l.video_id = 1 →
      l ∈ (delete_video stAliceEngaged 1 "alice").1.likes) :=
  delete_video_frame stAliceEngaged 1 "alice" ⟨1, "alice", "a@x.com", "h1"⟩
    ⟨1, "T", "D", "./uploads/aa_v.mp4", 0, 1⟩ rfl rfl rfl

/-- Modelled from the spec's words ("a sanitized form of the original
name", object names `\x7brandom-id\x7d_\x7bsanitized-original-name\x7d`): the minimal
requirement every sanitization of a file name satisfies — the sanitized
name contains no path separator, so the object cannot escape the uploads
directory. Used only to compare the code's locator against the spec. -/
def isSanitizedName (s : String) : Bool := !(s.data.contains '/')

/-- A name component of an object name free of path separators is itself
free of path separators. -/
theorem isSanitizedName_of_append (s t : String)
    (h : isSanitizedName (s ++ t) = true) : isSanitizedName t = true := by
  unfold isSanitizedName at h ⊢
  rw [Bool.not_eq_true'] at h
  rw [Bool.not_eq_true']
  rw [String.data_append] at h
  cases hc : t.data.contains '/' with
  | false => rfl
  | true =>
    have hmem : '/' ∈ t.data := List.mem_of_elem_eq_true hc
    have hcc : (s.data ++ t.data).contains '/' = true :=
      List.elem_eq_true_of_mem (List.mem_append.mpr (Or.inr hmem))
    rw [h] at hcc
    cases hcc

/-- Branch equation for `upload_video`: with valid fields, a known token
and a separator-free object name, the upload appends the media file and
the new Video row (zero likes, id assigned as SQLite max(rowid)+1). -/
theorem upload_video_ok_eq (st : DBState) (title descr token : String)
    (origName uuidHex : String) (user : UserRow)
    (ht : pyStrip title ≠ "") (hd : pyStrip descr ≠ "")
    (hauth : get_user_by_token token st = some user)
    (hw : writeOk (uuidHex ++ "_" ++ origName) = true) :
    upload_video st title descr token (some origName) uuidHex =
      ({ st with
          files := st.files ++ [uploadPath uuidHex origName]
        , videos := st.videos ++
            [VideoRow.mk (sqliteRowId (st.videos.map VideoRow.id)) title descr
              (uploadPath uuidHex origName) 0 user.id] },
       .ok (sqliteRowId (st.videos.map VideoRow.id))) := by
  unfold upload_video
  simp [ht, hd, hauth, hw]

/-- Branch equation for `upload_video`: an object name containing a path
separator makes `open` raise `FileNotFoundError`; the uncaught exception
aborts the request with the state unchanged. -/
theorem upload_video_writefail_eq (st : DBState) (title descr token : String)
    (origName uuidHex : String) (user : UserRow)
    (ht : pyStrip title ≠ "") (hd : pyStrip descr ≠ "")
    (hauth : get_user_by_token token st = some user)
    (hw : ¬ writeOk (uuidHex ++ "_" ++ origName) = true) :
    upload_video st title descr token (some origName) uuidHex =
      (st, .error (.serverError "FileNotFoundError")) := by
  unfold upload_video
  simp [ht, hd, hauth, hw]

/-- **C5**: for every successful upload, the Media Store locator is
`./uploads/{uuidHex}_{origName}` — the request's random 128-bit
identifier in hex combined with the file's original name — and the
stored object name is in sanitized form (it contains no path separator:
an original name for which this fails makes the file write raise, so
the upload fails and nothing reaches the store); and locators built from
distinct 32-character random identifiers are always distinct, whatever
the original names, so uploads drawing distinct random identifiers never
collide even when the original name is reused. -/
theorem upload_locator (st : DBState) (title descr token : String)
    (origName uuidHex : String) (vid : Nat)
    (hok : (upload_video st title descr token (some origName) uuidHex).2 =
      .ok vid) :
    ((upload_video st title descr token (some origName) uuidHex).1.files =
        st.files ++ [uploadPath uuidHex origName] ∧
      isSanitizedName (uuidHex ++ "_" ++ origName) = true ∧
      isSanitizedName origName = true) ∧
    (∀ u1 u2 n1 n2 : String, u1.length = 32 → u2.length = 32 → u1 ≠ u2 →
      uploadPath u1 n1 ≠ uploadPath u2 n2) := by
  constructor
  · by_cases h1 : pyStrip title = "" ∨ pyStrip descr = ""
    · rw [upload_video_invalid_eq st title descr token (some origName)
        uuidHex h1] at hok
      exact absurd hok (by simp)
    · push_neg at h1
      obtain ⟨ht, hd⟩ := h1
      cases hauth : get_user_by_token token st with
      | none =>
        have heq : upload_video st title descr token (some origName) uuidHex =
            (st, .error (.httpError 400 "Invalid token")) := by
          unfold upload_video
          simp [ht, hd, hauth]
        rw [heq] at hok
        exact absurd hok (by simp)
      | some user =>
        by_cases hw : writeOk (uuidHex ++ "_" ++ origName) = true
        · rw [upload_video_ok_eq st title descr token origName uuidHex user
            ht hd hauth hw]
          exact ⟨rfl, hw, isSanitizedName_of_append (uuidHex ++ "_") origName hw⟩
        · rw [upload_video_writefail_eq st title descr token origName uuidHex
            user ht hd hauth hw] at hok
          exact absurd hok (by simp)
  · intro u1 u2 n1 n2 h1 h2 hne heq
    apply hne
    unfold uploadPath at heq
    have hdata := congrArg String.data heq
    simp only [String.data_append] at hdata
    rw [List.append_assoc, List.append_assoc,
        List.append_assoc, List.append_assoc] at hdata
    have hdata' := List.append_cancel_left hdata
    have hlen : u1.data.length = u2.data.length := by
      have e1 : u1.data.length = u1.length := rfl
      have e2 : u2.data.length = u2.length := rfl
      rw [e1, e2, h1, h2]
    exact String.ext (List.append_inj hdata' hlen).1

/-- Witness for C5: uploading `v.mp4` as "alice" with a fixed random
identifier succeeds; the object lands at the expected path and its name
is separator-free. -/
theorem upload_locator_witness :
    ((upload_video stAlice "T2" "D2" "alice" (some "v.mp4")
        "00112233445566778899aabbccddeeff").1.files =
        stAlice.files ++
          [uploadPath "00112233445566778899aabbccddeeff" "v.mp4"] ∧
      isSanitizedName ("00112233445566778899aabbccddeeff" ++ "_" ++ "v.mp4")
        = true ∧
      isSanitizedName "v.mp4" = true) ∧
    (∀ u1 u2 n1 n2 : String, u1.length = 32 → u2.length = 32 → u1 ≠ u2 →
      uploadPath u1 n1 ≠ uploadPath u2 n2) :=
  upload_locator stAlice "T2" "D2" "alice" "v.mp4"
    "00112233445566778899aabbccddeeff" 2 rfl

/-- Branch equation for `like_video`: when the user has no Like row on
the (existing) video, the call inserts a Like row, increments the
counter of the first row with that video id, and returns
`(count + 1, liked = true)`. -/
theorem like_video_insert (st : DBState) (video_id : Nat) (token : String)
    (user : UserRow) (video : VideoRow)
    (hauth : get_user_by_token token st = some user)
    (hv : findVideo st video_id = some video)
    (hnl : findLike st user.id video_id = none) :
    like_video st video_id token =
      ({ st with
          likes := st.likes ++
            [⟨sqliteRowId (st.likes.map LikeRow.id), user.id, video_id⟩]
        , videos := updateFirstVideo st.videos video_id
            (fun w => { w with likes := w.likes + 1 }) },
       .ok (video.likes + 1, true)) := by
  simp only [like_video, hauth, hv, hnl]

/-- Branch equation for `like_video`: when the user already has a Like
row on the (existing) video, the call erases that row, decrements the
counter of the first row with that video id, and returns
`(count - 1, liked = false)`. -/
theorem like_video_remove (st : DBState) (video_id : Nat) (token : String)
    (user : UserRow) (video : VideoRow) (l0 : LikeRow)
    (hauth : get_user_by_token token st = some user)
    (hv : findVideo st video_id = some video)
    (hl : findLike st user.id video_id = some l0) :
    like_video st video_id token =
      ({ st with
          likes := st.likes.eraseP (likeMatch user.id video_id)
        , videos := updateFirstVideo st.videos video_id
            (fun w => { w with likes := w.likes - 1 }) },
       .ok (video.likes - 1, false)) := by
  simp only [like_video, hauth, hv, hl]

/-- Unfolding equation: `find?` on a cons. -/
theorem find?_cons_eq {α : Type} (p : α → Bool) (a : α) (l : List α) :
    List.find? p (a :: l) = if p a then some a else List.find? p l := by
  cases h : p a <;> simp [List.find?, h]

/-- Unfolding equation: `updateFirstVideo` on a cons. -/
theorem updateFirstVideo_cons (v : VideoRow) (rest : List VideoRow)
    (video_id : Nat) (f : VideoRow → VideoRow) :
    updateFirstVideo (v :: rest) video_id f =
      if v.id == video_id then f v :: rest
      else v :: updateFirstVideo rest video_id f := rfl

/-- `updateFirstVideo` sends the first row matching the id to its image
under the update, provided the update preserves ids. -/
theorem updateFirstVideo_find? (l : List VideoRow) (video_id : Nat)
    (f : VideoRow → VideoRow) (w : VideoRow)
    (hid : ∀ x, (f x).id = x.id)
    (hw : l.find? (fun v => v.id == video_id) = some w) :
    (updateFirstVideo l video_id f).find? (fun v => v.id == video_id) =
      some (f w) := by
  induction l with
  | nil => exact absurd hw (by simp)
  | cons v rest ih =>
    rw [find?_cons_eq] at hw
    by_cases hv : (v.id == video_id) = true
    · rw [if_pos hv] at hw
      cases hw
      rw [updateFirstVideo_cons, if_pos hv, find?_cons_eq]
      rw [if_pos (show ((f w).id == video_id) = true by rw [hid]; exact hv)]
    · rw [if_neg hv] at hw
      rw [updateFirstVideo_cons, if_neg hv, find?_cons_eq, if_neg hv]
      exact ih hw

/-- Two successive first-row updates at the same id compose, provided
the first update preserves ids. -/
theorem updateFirstVideo_comp (l : List VideoRow) (video_id : Nat)
    (f g : VideoRow → VideoRow) (hid : ∀ x, (f x).id = x.id) :
    updateFirstVideo (updateFirstVideo l video_id f) video_id g =
      updateFirstVideo l video_id (fun w => g (f w)) := by
  induction l with
  | nil => rfl
  | cons v rest ih =>
    by_cases hv : (v.id == video_id) = true
    · rw [updateFirstVideo_cons, if_pos hv, updateFirstVideo_cons,
        if_pos (show ((f v).id == video_id) = true by rw [hid]; exact hv),
        updateFirstVideo_cons, if_pos hv]
    · rw [updateFirstVideo_cons, if_neg hv, updateFirstVideo_cons, if_neg hv,
        updateFirstVideo_cons, if_neg hv, ih]

/-- A pointwise-trivial first-row update is the identity. -/
theorem updateFirstVideo_eq_self (l : List VideoRow) (video_id : Nat)
    (f : VideoRow → VideoRow) (hf : ∀ x, f x = x) :
    updateFirstVideo l video_id f = l := by
  induction l with
  | nil => rfl
  | cons v rest ih =>
    rw [updateFirstVideo_cons]
    by_cases hv : (v.id == video_id) = true
    · rw [if_pos hv, hf]
    · rw [if_neg hv, ih]

/-- Appending one matching row to a list with no matching row makes the
appended row the first match. -/
theorem find?_append_of_none {α : Type} (l : List α) (p : α → Bool) (x : α)
    (h : l.find? p = none) (hx : p x = true) :
    (l ++ [x]).find? p = some x := by
  induction l with
  | nil =>
    rw [List.nil_append, find?_cons_eq, if_pos hx]
  | cons a rest ih =>
    rw [find?_cons_eq] at h
    by_cases ha : p a = true
    · rw [if_pos ha] at h
      exact absurd h (by simp)
    · rw [if_neg ha] at h
      rw [List.cons_append, find?_cons_eq, if_neg ha]
      exact ih h

/-- Erasing the first match from a list whose only match is a final
appended row recovers the original list. -/
theorem eraseP_append_singleton {α : Type} (l : List α) (p : α → Bool) (x : α)
    (h : l.find? p = none) (hx : p x = true) :
    (l ++ [x]).eraseP p = l := by
  rw [List.eraseP_append_right _ (by
    intro b hb
    have := List.find?_eq_none.mp h b hb
    simp [this])]
  rw [List.eraseP_cons_of_pos hx]
  simp

/-- Repeated sequential calls of the like toggle by the same user on the
same video: the state after `n` calls. -/
def like_videoIter (st : DBState) (video_id : Nat) (token : String) : Nat → DBState
  | 0 => st
  | n + 1 => (like_video (like_videoIter st video_id token n) video_id token).1

/-- State shape after `n` sequential like-toggles by one user on one
existing video, starting with no Like row for the pair: users unchanged,
the video still resolves, and the likes table is the original one plus a
single matching row exactly when `n` is odd. -/
theorem like_videoIter_shape (st : DBState) (video_id : Nat) (token : String)
    (user : UserRow) (video : VideoRow)
    (hauth : get_user_by_token token st = some user)
    (hv : findVideo st video_id = some video)
    (hnl : findLike st user.id video_id = none) :
    ∀ n : Nat,
      (like_videoIter st video_id token n).users = st.users ∧
      (∃ w, findVideo (like_videoIter st video_id token n) video_id = some w) ∧
      ((n % 2 = 0 ∧ (like_videoIter st video_id token n).likes = st.likes) ∨
       (n % 2 = 1 ∧ ∃ x, likeMatch user.id video_id x = true ∧
          (like_videoIter st video_id token n).likes = st.likes ++ [x])) := by
  intro n
  induction n with
  | zero => exact ⟨rfl, ⟨video, hv⟩, Or.inl ⟨rfl, rfl⟩⟩
  | succ n ih =>
    obtain ⟨husers, ⟨w, hw⟩, hcase⟩ := ih
    have hauth' : get_user_by_token token (like_videoIter st video_id token n) =
        some user := by
      rw [get_user_by_token_congr st _ token husers]
      exact hauth
    have hnl' : st.likes.find? (likeMatch user.id video_id) = none := hnl
    rcases hcase with ⟨hpar, hlikes⟩ | ⟨hpar, x, hx, hlikes⟩
    · have hfind : findLike (like_videoIter st video_id token n) user.id video_id
          = none := by
        unfold findLike
        rw [hlikes]
        exact hnl'
      have hstep := like_video_insert (like_videoIter st video_id token n)
        video_id token user w hauth' hw hfind
      have hiter : like_videoIter st video_id token (n + 1) =
          (like_video (like_videoIter st video_id token n) video_id token).1 := rfl
      rw [hiter, hstep]
      refine ⟨husers, ⟨{ w with likes := w.likes + 1 }, ?_⟩, Or.inr ⟨?_, ?_⟩⟩
      · exact updateFirstVideo_find? _ video_id _ w (fun x => rfl) hw
      · omega
      · refine ⟨⟨sqliteRowId ((like_videoIter st video_id token n).likes.map
            LikeRow.id), user.id, video_id⟩, ?_, ?_⟩
        · simp [likeMatch]
        · simp only [hlikes]
    · have hfind : findLike (like_videoIter st video_id token n) user.id video_id
          = some x := by
        unfold findLike
        rw [hlikes]
        exact find?_append_of_none st.likes _ x hnl' hx
      have hstep := like_video_remove (like_videoIter st video_id token n)
        video_id token user w x hauth' hw hfind
      have hiter : like_videoIter st video_id token (n + 1) =
          (like_video (like_videoIter st video_id token n) video_id token).1 := rfl
      rw [hiter, hstep]
      refine ⟨husers, ⟨{ w with likes := w.likes - 1 }, ?_⟩, Or.inl ⟨?_, ?_⟩⟩
      · exact updateFirstVideo_find? _ video_id _ w (fun x => rfl) hw
      · omega
      · simp only [hlikes]
        exact eraseP_append_singleton st.likes _ x hnl' hx

/-- **C2**: starting from a state in which the (registered) requester has
no Like row on the (existing) video, the first toggle returns
`(count + 1, liked = true)`; the second toggle returns the original count
with `liked = false` and restores both the likes table and the videos
table (counter included); and for every `n`, the `(n+1)`-st sequential
toggle returns a liked flag equal to "`n + 1` is odd". -/
theorem like_video_toggle (st : DBState) (video_id : Nat) (token : String)
    (user : UserRow) (video : VideoRow)
    (hauth : get_user_by_token token st = some user)
    (hv : findVideo st video_id = some video)
    (hnl : findLike st user.id video_id = none) :
    (like_video st video_id token).2 = .ok (video.likes + 1, true) ∧
    (like_video ((like_video st video_id token).1) video_id token).2 =
      .ok (video.likes, false) ∧
    (like_video ((like_video st video_id token).1) video_id token).1.likes =
      st.likes ∧
    (like_video ((like_video st video_id token).1) video_id token).1.videos =
      st.videos ∧
    (like_video ((like_video st video_id token).1) video_id token).1.users =
      st.users ∧
    (∀ n : Nat, ∃ c : Int,
      (like_video (like_videoIter st video_id token n) video_id token).2 =
        .ok (c, (n + 1) % 2 == 1)) := by
  have hnl' : st.likes.find? (likeMatch user.id video_id) = none := hnl
  have hstep1 := like_video_insert st video_id token user video hauth hv hnl
  have hst1 : (like_video st video_id token).1 =
      { st with
          likes := st.likes ++
            [⟨sqliteRowId (st.likes.map LikeRow.id), user.id, video_id⟩]
        , videos := updateFirstVideo st.videos video_id
            (fun w => { w with likes := w.likes + 1 }) } := by
    rw [hstep1]
  have hauth1 : get_user_by_token token ((like_video st video_id token).1) =
      some user := by
    rw [get_user_by_token_congr st _ token (by rw [hst1])]
    exact hauth
  have hv1 : findVideo ((like_video st video_id token).1) video_id =
      some { video with likes := video.likes + 1 } := by
    rw [hst1]
    unfold findVideo
    exact updateFirstVideo_find? st.videos video_id _ video (fun x => rfl) hv
  have hnewrow : likeMatch user.id video_id
      ⟨sqliteRowId (st.likes.map LikeRow.id), user.id, video_id⟩ = true := by
    simp [likeMatch]
  have hl1 : findLike ((like_video st video_id token).1) user.id video_id =
      some ⟨sqliteRowId (st.likes.map LikeRow.id), user.id, video_id⟩ := by
    rw [hst1]
    unfold findLike
    exact find?_append_of_none st.likes _ _ hnl' hnewrow
  have hstep2 := like_video_remove ((like_video st video_id token).1) video_id
    token user { video with likes := video.likes + 1 }
    ⟨sqliteRowId (st.likes.map LikeRow.id), user.id, video_id⟩ hauth1 hv1 hl1
  refine ⟨by rw [hstep1], ?_, ?_, ?_, ?_, ?_⟩
  · rw [hstep2]
    show Except.ok (video.likes + 1 - 1, false) = Except.ok (video.likes, false)
    rw [Int.add_sub_cancel]
  · rw [hstep2, hst1]
    show List.eraseP (likeMatch user.id video_id)
        (st.likes ++
          [⟨sqliteRowId (st.likes.map LikeRow.id), user.id, video_id⟩])
      = st.likes
    exact eraseP_append_singleton st.likes _ _ hnl' hnewrow
  · rw [hstep2, hst1]
    show updateFirstVideo
        (updateFirstVideo st.videos video_id (fun w => { w with likes := w.likes + 1 }))
        video_id (fun w => { w with likes := w.likes - 1 }) = st.videos
    rw [updateFirstVideo_comp st.videos video_id
      (fun w => { w with likes := w.likes + 1 })
      (fun w => { w with likes := w.likes - 1 }) (fun x => rfl)]
    exact updateFirstVideo_eq_self st.videos video_id _
      (fun x => by cases x; simp)
  · rw [hstep2, hst1]
  · intro n
    obtain ⟨husers, ⟨w, hw⟩, hcase⟩ :=
      like_videoIter_shape st video_id token user video hauth hv hnl n
    have hauthn : get_user_by_token token (like_videoIter st video_id token n) =
        some user := by
      rw [get_user_by_token_congr st _ token husers]
      exact hauth
    rcases hcase with ⟨hpar, hlikes⟩ | ⟨hpar, x, hx, hlikes⟩
    · have hfind : findLike (like_videoIter st video_id token n) user.id video_id
          = none := by
        unfold findLike
        rw [hlikes]
        exact hnl'
      refine ⟨w.likes + 1, ?_⟩
      rw [like_video_insert (like_videoIter st video_id token n) video_id token
        user w hauthn hw hfind]
      have hmod : (n + 1) % 2 = 1 := by omega
      rw [hmod]
      rfl
    · have hfind : findLike (like_videoIter st video_id token n) user.id video_id
          = some x := by
        unfold findLike
        rw [hlikes]
        exact find?_append_of_none st.likes _ x hnl' hx
      refine ⟨w.likes - 1, ?_⟩
      rw [like_video_remove (like_videoIter st video_id token n) video_id token
        user w x hauthn hw hfind]
      have hmod : (n + 1) % 2 = 0 := by omega
      rw [hmod]
      rfl

/-- Witness for C2: in the populated state (alice, video 1 with 0 likes,
no Like rows) the first toggle returns `(1, true)` and the second
returns `(0, false)` with the tables restored. -/
theorem like_video_toggle_witness :
    (like_video stAlice 1 "alice").2 = .ok ((0 : Int) + 1, true) ∧
    (like_video ((like_video stAlice 1 "alice").1) 1 "alice").2 =
      .ok ((0 : Int), false) ∧
    (like_video ((like_video stAlice 1 "alice").1) 1 "alice").1.likes =
      stAlice.likes ∧
    (like_video ((like_video stAlice 1 "alice").1) 1 "alice").1.videos =
      stAlice.videos ∧
    (like_video ((like_video stAlice 1 "alice").1) 1 "alice").1.users =
      stAlice.users ∧
    (∀ n : Nat, ∃ c : Int,
      (like_video (like_videoIter stAlice 1 "alice" n) 1 "alice").2 =
        .ok (c, (n + 1) % 2 == 1)) :=
  like_video_toggle stAlice 1 "alice" ⟨1, "alice", "a@x.com", "h1"⟩
    ⟨1, "T", "D", "./uploads/aa_v.mp4", 0, 1⟩ rfl rfl rfl

/-- Number of Like rows referencing a given video id. -/
def likesCountFor (likes : List LikeRow) (vid : Nat) : Nat :=
  (likes.filter (fun l => l.video_id == vid)).length

/-- At most one Like row per (user, video) pair. -/
def atMostOneLike (st : DBState) : Prop :=
  ∀ u v : Nat, (st.likes.filter (likeMatch u v)).length ≤ 1

/-- Every Video row's `likes` counter equals the number of Like rows
referencing it. -/
def likesCounterOk (st : DBState) : Prop :=
  ∀ w ∈ st.videos, w.likes = (likesCountFor st.likes w.id : Int)

/-- The invariant claimed for the store: per-pair uniqueness of likes
plus counter consistency. -/
def LikeInvariant (st : DBState) : Prop := atMostOneLike st ∧ likesCounterOk st

/-- One request-handler execution, with arbitrary arguments; a handler
that raises leaves the state unchanged, so failed calls are steps too. -/
inductive Step : DBState → DBState → Prop where
  | regStep (st : DBState) (username email hashed_pw : String) :
      Step st (register st username email hashed_pw).1
  | uploadStep (st : DBState) (title descr token : String)
      (file : Option String) (uuidHex : String) :
      Step st (upload_video st title descr token file uuidHex).1
  | toggleStep (st : DBState) (video_id : Nat) (token : String) :
      Step st (like_video st video_id token).1
  | commentStep (st : DBState) (video_id : Nat) (token content : String) :
      Step st (add_comment st video_id token content).1
  | deleteStep (st : DBState) (video_id : Nat) (token : String) :
      Step st (delete_video st video_id token).1

/-- States reachable from the empty initial state by handler calls. -/
inductive Reachable : DBState → Prop where
  | init : Reachable initState
  | step {st st' : DBState} : Reachable st → Step st st' → Reachable st'

/-- After registering "alice". -/
def stReg : DBState := (register initState "alice" "a@x.com" "h1").1

/-- ... she uploads a first video, which gets rowid 1. -/
def stUp1 : DBState := (upload_video stReg "T" "D" "alice" (some "v.mp4") "a1").1

/-- ... and likes it: one Like row for (user 1, video 1), counter 1. -/
def stLiked : DBState := (like_video stUp1 1 "alice").1

/-- ... then deletes her video: the Video row is gone but the Like row
referencing video 1 survives, orphaned (see C8). -/
def stDel : DBState := (delete_video stLiked 1 "alice").1

/-- ... and uploads a second video: the videos table is empty again, so
SQLite hands out rowid 1 a second time. The new video starts with
`likes = 0` while the orphaned Like row still references video 1. -/
def stReuse : DBState :=
  (upload_video stDel "T2" "D2" "alice" (some "w.mp4") "a2").1

/-- **C1**: the claimed invariant does not hold at every reachable
state. Replaying register → upload → like → owner-delete → upload
reaches `stReuse`, where the reused video id 1 carries `likes = 0` while
one orphaned Like row references video 1 — the counter does not equal
the count of Like rows, so `upload` applied to `stDel` does not preserve
the invariant. A further toggle by alice even adopts the orphaned row
and answers `likes = -1`. -/
theorem like_counter_code_bug :
    Reachable stReuse ∧
    stReuse.videos = [⟨1, "T2", "D2", uploadPath "a2" "w.mp4", 0, 1⟩] ∧
    stReuse.likes = [⟨1, 1, 1⟩] ∧
    ¬ LikeInvariant stReuse ∧
    (like_video stReuse 1 "alice").2 = .ok (-1, false) := by
  refine ⟨?_, ?_, ?_, ?_, ?_⟩
  · exact Reachable.step (Reachable.step (Reachable.step (Reachable.step
      (Reachable.step Reachable.init
        (Step.regStep initState "alice" "a@x.com" "h1"))
      (Step.uploadStep stReg "T" "D" "alice" (some "v.mp4") "a1"))
      (Step.toggleStep stUp1 1 "alice"))
      (Step.deleteStep stLiked 1 "alice"))
      (Step.uploadStep stDel "T2" "D2" "alice" (some "w.mp4") "a2")
  · decide
  · decide
  · intro h
    exact absurd
      (h.2 ⟨1, "T2", "D2", uploadPath "a2" "w.mp4", 0, 1⟩ (by decide))
      (by decide)
  · rfl

end VideoApp
